import Mathlib

/-!
Verification development for the btktool-apiyi detail-page generator.

The definitions below are a shallow embedding of the TypeScript sources:
  * src/services/geminiService.ts   (planning, image generation, batch orchestration)
  * src/services/cloudinaryService.ts (image store adapter)
  * src/App.tsx                     (single-section regenerate state updates)
  * src/components/DetailPagePreview.tsx (markup export, part_000)
  * src/services/categoryThemes.ts  (text-style resolver, part_002)

External I/O (HTTP fetches, JSON.parse) is modelled by explicit outcome
parameters; everything else is translated directly from the source.
Machine integers are modelled as Int/Nat (prices are integral currency
amounts; no overflow is reachable at the magnitudes involved).
-/

namespace Btk

/-! ### String helpers (JavaScript primitives used by the sources) -/

/-- JavaScript `needle.isPrefixOf hay` test on character lists, used to build
`String.prototype.includes`. -/
def listIncludes (needle : List Char) : List Char → Bool
  | [] => needle.isEmpty
  | c :: rest => needle.isPrefixOf (c :: rest) || listIncludes needle rest

/-- JavaScript `hay.includes(needle)` (contiguous-substring test). -/
def strIncludes (hay needle : String) : Bool :=
  listIncludes needle.data hay.data

/-- JavaScript `s.startsWith(pre)` (defined over the character lists so
that it evaluates inside the kernel). -/
def strStartsWith (s pre : String) : Bool :=
  pre.data.isPrefixOf s.data

/-- JavaScript `s.toLowerCase()` restricted to the ASCII range, which is
all the upstream error messages use. -/
def strToLower (s : String) : String :=
  String.mk (s.data.map Char.toLower)

/-- The left brace character (written by code point to keep it out of
character literals). -/
def lbrace : Char := Char.ofNat 123

/-- The right brace character. -/
def rbrace : Char := Char.ofNat 125

/-- Base64 alphabet used by `window.btoa`. -/
def base64Alphabet : List Char :=
  "ABCDEFGHIJKLMNOPQRSTUVWXYZabcdefghijklmnopqrstuvwxyz0123456789+/".data

/-- One base64 digit. -/
def b64Digit (n : Nat) : Char := base64Alphabet.getD n (Char.ofNat 65)

/-- Base64-encode a byte list, 3 bytes to 4 digits, with `=` padding. -/
def b64Encode : List Nat → List Char
  | [] => []
  | [a] =>
      [b64Digit (a / 4), b64Digit (a % 4 * 16), Char.ofNat 61, Char.ofNat 61]
  | [a, b] =>
      [b64Digit (a / 4), b64Digit (a % 4 * 16 + b / 16), b64Digit (b % 16 * 4),
        Char.ofNat 61]
  | a :: b :: c :: rest =>
      b64Digit (a / 4) :: b64Digit (a % 4 * 16 + b / 16) ::
        b64Digit (b % 16 * 4 + c / 64) :: b64Digit (c % 64) :: b64Encode rest

/-- `window.btoa`: base64 of a Latin1 string.  Per the HTML standard it
throws `InvalidCharacterError` when the string has any code point above
U+00FF; this partiality is what makes the repository's SVG placeholder
(whose text is Korean) unproducible at run time. -/
def btoa (s : String) : Except String String :=
  if s.data.any (fun c => 255 < c.toNat) then
    .error "InvalidCharacterError"
  else
    .ok (String.mk (b64Encode (s.data.map Char.toNat)))

/-! ### Data model (src/types.ts) -/

/-- Page length request: explicit 5/7/9 or automatic. -/
inductive PageLength where
  | len5
  | len7
  | len9
  | auto
deriving DecidableEq, Repr

/-- Thumbnail style options (types.ts `ThumbnailConfig.style`). -/
inductive ThumbStyle where
  | clean
  | lifestyle
  | creative
deriving DecidableEq, Repr

/-- types.ts `ThumbnailConfig`. -/
structure ThumbnailConfig where
  style : ThumbStyle
  includeHand : Bool
  includeModel : Bool
  textOverlay : String
  textPosition : String
deriving DecidableEq, Repr

/-- types.ts `ProductData` (fields not read by the modelled operations are
omitted: description, targetAudience, selectedModel, platform, discountRate,
promotionText, targetGender, targetAge only feed prompt text). -/
structure ProductData where
  name : String
  images : List String
  price : Int
  pageLength : Option PageLength
  category : Option String
  thumbnailConfig : Option ThumbnailConfig
deriving DecidableEq, Repr

/-- types.ts `DetailSection`.  `logicType` is kept as the runtime string the
external planner returned (the TS `SalesLogicType` union is erased at run
time and `planDetailPage` copies the response value unchecked). -/
structure DetailSection where
  id : String
  order : Nat
  logicType : String
  title : String
  keyMessage : String
  subMessage : Option String
  visualPrompt : String
  imageUrl : Option String
  isGenerating : Option Bool
  textPosition : String
  textStyle : String
deriving DecidableEq, Repr

/-- types.ts `GeneratedDetailPage.thumbnail`. -/
structure Thumbnail where
  imageUrl : String
  prompt : String
deriving DecidableEq, Repr

/-- types.ts `GeneratedDetailPage`. -/
structure GeneratedDetailPage where
  sections : List DetailSection
  thumbnail : Option Thumbnail
deriving DecidableEq, Repr

/-! ### Image store adapter (src/services/cloudinaryService.ts) -/

/-- cloudinaryService.ts `uploadToCloudinary` (lines 20-81).  The Cloudinary
HTTP round trip is the `fetchResult` parameter (`.ok secureUrl` models a 2xx
response carrying `data.secure_url`, `.error` models a failed upload, which
the source rethrows).  The base64-to-Blob conversion only shapes the request
payload and is elided. -/
def uploadToCloudinary (base64Image : String)
    (fetchResult : Except String String) : Except String String :=
  if strStartsWith base64Image "http" then
    .ok base64Image
  else if strIncludes base64Image "image/svg+xml" then
    .error "SVG 이미지는 업로드할 수 없습니다."
  else
    match fetchResult with
    | .ok secureUrl => .ok secureUrl
    | .error e => .error e

/-- The store-adapter persist operation as used by its caller
(geminiService.ts lines 129-135): try `uploadToCloudinary`, and on any
upload failure fall back to the original inline representation. -/
def persistImage (img : String) (fetchResult : Except String String) : String :=
  match uploadToCloudinary img fetchResult with
  | .ok url => url
  | .error _ => img

/-! ### Image generation (src/services/geminiService.ts) -/

/-- geminiService.ts `getFallbackImage` (lines 21-22): SVG placeholder
data-URI.  `btoa` is applied to a string containing Korean text
(`이미지 생성 실패`), so evaluating it throws `InvalidCharacterError`. -/
def getFallbackImage : Except String String :=
  (btoa "<svg xmlns=\"http://www.w3.org/2000/svg\" width=\"400\" height=\"600\" viewBox=\"0 0 400 600\"><rect fill=\"#f3f4f6\" width=\"400\" height=\"600\"/><text x=\"200\" y=\"300\" fill=\"#9ca3af\" font-family=\"sans-serif\" font-size=\"14\" text-anchor=\"middle\">이미지 생성 실패</text></svg>").map
    (fun b => "data:image/svg+xml;base64," ++ b)

/-- Outcome of one APIYI image-generation HTTP round trip:
`abort` models the 90-second timeout, `httpError` a non-2xx response with
the extracted error message, `success` a 2xx response whose parsed
`inlineData` is `some (mimeType, data)` or absent. -/
inductive FetchOutcome where
  | abort
  | httpError (status : Nat) (errorMessage : String)
  | success (image : Option (String × String))
deriving DecidableEq, Repr

/-- geminiService.ts `generateImageWithAPIYI` (lines 28-148).  The prompt
and reference-image request building (lines 40-74) only shape the request
and are elided; `upload` is the Cloudinary round-trip outcome used at lines
129-135.  The three distinct "response without image" error messages are
collapsed into one (no claim distinguishes them). -/
def generateImageWithAPIYI (o : FetchOutcome)
    (upload : Except String String) : Except String String :=
  match o with
  | .abort => .error "이미지 생성 시간 초과 (90초)"
  | .httpError status errorMessage =>
      if strIncludes (strToLower errorMessage) "insufficient"
          || strIncludes (strToLower errorMessage) "quota"
          || strIncludes (strToLower errorMessage) "billing"
          || status == 429 then
        .error "CREDITS_INSUFFICIENT"
      else
        .error ("APIYI API 오류: " ++ errorMessage)
  | .success none => .error "APIYI 응답에서 이미지 데이터를 찾을 수 없습니다."
  | .success (some (mimeType, data)) =>
      let base64Image := "data:" ++ mimeType ++ ";base64," ++ data
      .ok (persistImage base64Image upload)

/-- geminiService.ts `generateSectionImage` (lines 288-333): rethrows the
credits sentinel, otherwise returns `getFallbackImage()` — whose own
exception (see `btoa`) escapes the catch block. -/
def generateSectionImage (o : FetchOutcome)
    (upload : Except String String) : Except String String :=
  match generateImageWithAPIYI o upload with
  | .ok imageUrl => .ok imageUrl
  | .error e =>
      if e == "CREDITS_INSUFFICIENT" then .error e
      else
        match getFallbackImage with
        | .ok fallback => .ok fallback
        | .error e2 => .error e2

/-- geminiService.ts `generateThumbnail` (lines 339-388): same error
structure as `generateSectionImage`, 1:1 aspect request. -/
def generateThumbnail (o : FetchOutcome)
    (upload : Except String String) : Except String String :=
  match generateImageWithAPIYI o upload with
  | .ok imageUrl => .ok imageUrl
  | .error e =>
      if e == "CREDITS_INSUFFICIENT" then .error e
      else
        match getFallbackImage with
        | .ok fallback => .ok fallback
        | .error e2 => .error e2

/-- geminiService.ts `regenerateSection` (lines 461-466) delegates to
`generateSectionImage`. -/
def regenerateSection (o : FetchOutcome)
    (upload : Except String String) : Except String String :=
  generateSectionImage o upload

/-! ### Section planner (src/services/geminiService.ts `planDetailPage`) -/

/-- geminiService.ts `SALES_LOGIC_FRAMEWORK` (lines 156-160): the fixed
ordered role template per page length. -/
def SALES_LOGIC_FRAMEWORK : Nat → List String
  | 5 => ["hook", "solution", "clarity", "service", "riskReversal"]
  | 7 => ["hook", "solution", "clarity", "socialProof", "service",
          "riskReversal", "comparison"]
  | 9 => ["hook", "solution", "clarity", "socialProof", "service",
          "brandStory", "comparison", "riskReversal", "service"]
  | _ => []

/-- Title/description pair of `LOGIC_TYPE_INFO`. -/
structure LogicTypeInfo where
  title : String
  description : String
deriving DecidableEq, Repr

/-- geminiService.ts `LOGIC_TYPE_INFO` (lines 162-171). -/
def LOGIC_TYPE_INFO : String → LogicTypeInfo
  | "hook" => ⟨"문제 제기", "고객의 불편함과 고민을 자극하는 후킹"⟩
  | "solution" => ⟨"해결책 제시", "이 상품이 어떻게 문제를 해결하는지"⟩
  | "clarity" => ⟨"스펙/비교", "크기, 용량, 성분 등 구체적 정보"⟩
  | "socialProof" => ⟨"사회적 증거", "리뷰, 판매량, 수상 경력 등"⟩
  | "service" => ⟨"활용법", "사용 방법, 활용 팁, 스타일링"⟩
  | "riskReversal" => ⟨"신뢰/보장", "AS, 환불 정책, 인증, 보증"⟩
  | "brandStory" => ⟨"브랜드 스토리", "브랜드 철학, 제조 과정, 장인 정신"⟩
  | "comparison" => ⟨"경쟁사 비교", "타사 대비 우위점, 차별화 포인트"⟩
  | _ => ⟨"", ""⟩

/-- Page-length resolution inlined in `planDetailPage` (geminiService.ts
lines 181-194): default 7; `auto` decides by price and category with strict
comparisons; an explicit 5/7/9 is used unchanged. -/
def resolveTargetLength (pageLength : Option PageLength) (price : Int)
    (category : Option String) : Nat :=
  match pageLength with
  | some .auto =>
      if 100000 < price
          ∨ (category.getD "") ∈ ["뷰티/화장품", "디지털/IT"] then 9
      else if 30000 < price then 7
      else 5
  | some .len5 => 5
  | some .len7 => 7
  | some .len9 => 9
  | none => 7

/-- The role lines embedded in the planning prompt (geminiService.ts line
214): the resolved role template, numbered, in order. -/
def planPromptRoleLines (pd : ProductData) : List String :=
  (SALES_LOGIC_FRAMEWORK
      (resolveTargetLength pd.pageLength pd.price pd.category)).mapIdx
    (fun idx logic =>
      toString (idx + 1) ++ ". " ++ (LOGIC_TYPE_INFO logic).title ++ " (" ++
        logic ++ "): " ++ (LOGIC_TYPE_INFO logic).description)

/-- One entry of the structured planning response, as consumed by
`parsed.sections.map` (geminiService.ts lines 270-281): every field the
mapping reads, with the JS-falsy defaults made explicit via `Option`. -/
structure RawSection where
  order : Option Nat
  logicType : String
  title : String
  keyMessage : String
  subMessage : Option String
  visualPrompt : String
  textPosition : Option String
  textStyle : Option String
deriving DecidableEq, Repr

/-- Result of `JSON.parse` on the extracted brace span: a parse failure
(`SyntaxError`), a JSON value with no `sections` array (the subsequent
`.map` then throws `TypeError`), or a `sections` array. -/
inductive ParsedJson where
  | notJson
  | objWithoutSections
  | obj (sections : List RawSection)
deriving DecidableEq, Repr

/-- Outcome of the planning text-generation HTTP call: a non-2xx response,
or a 2xx response with the extracted text
`data.candidates?.[0]?.content?.parts?.[0]?.text || ''`. -/
inductive PlanFetch where
  | httpError (body : String)
  | success (text : String)
deriving DecidableEq, Repr

/-- The regex `text.match` of geminiService.ts line 265 against the pattern
"brace, anything, brace" (greedy): the span from the first left brace to
the last right brace, when the latter comes strictly after the former. -/
def extractJsonSpan (text : String) : Option String :=
  let cs := text.data
  match cs.findIdx? (fun c => c == lbrace) with
  | none => none
  | some i =>
      match cs.reverse.findIdx? (fun c => c == rbrace) with
      | none => none
      | some r =>
          let j := cs.length - 1 - r
          if i < j then some (String.mk ((cs.drop i).take (j - i + 1)))
          else none

/-- The per-entry mapping of geminiService.ts lines 270-281: copy the
response entry into a `DetailSection` (JS-falsy fields defaulted), with an
empty image and `isGenerating=false`. -/
def planSectionOfRaw (idx : Nat) (s : RawSection) : DetailSection :=
  { id := "section-" ++ toString (idx + 1)
    order := match s.order with
      | some o => if o == 0 then idx + 1 else o
      | none => idx + 1
    logicType := s.logicType
    title := s.title
    keyMessage := s.keyMessage
    subMessage := s.subMessage
    visualPrompt := s.visualPrompt
    imageUrl := none
    isGenerating := some false
    textPosition := match s.textPosition with
      | some t => if t == "" then "center" else t
      | none => "center"
    textStyle := match s.textStyle with
      | some t => if t == "" then "light" else t
      | none => "light" }

/-- geminiService.ts `planDetailPage` (lines 177-282).  The prompt text
(lines 198-239) only shapes the request — see `planPromptRoleLines` for the
part that carries the role template — and the HTTP round trip plus
`JSON.parse` are the `fetch` and `parse` parameters.  Note that the mapping
at lines 270-281 copies the response entries unchecked: no comparison with
`logicSequence` is performed. -/
def planDetailPage (pd : ProductData) (fetch : PlanFetch)
    (parse : String → ParsedJson) : Except String (List DetailSection) :=
  let _logicSequence := SALES_LOGIC_FRAMEWORK
    (resolveTargetLength pd.pageLength pd.price pd.category)
  match fetch with
  | .httpError _ => .error "상세페이지 기획 생성 실패"
  | .success text =>
      match extractJsonSpan text with
      | none => .error "기획 생성 실패: JSON 형식이 아닙니다"
      | some jsonStr =>
          match parse jsonStr with
          | .notJson => .error "SyntaxError: JSON.parse"
          | .objWithoutSections => .error "TypeError: parsed.sections"
          | .obj rawSections =>
              .ok (rawSections.mapIdx planSectionOfRaw)

/-! ### Batch orchestration (geminiService.ts `generateFullDetailPage`) -/

/-- One element of the `imagePromises` array (geminiService.ts lines
406-425): await the section image inside a catch-all, so the promise always
resolves to a section with `isGenerating=false` — with the new `imageUrl`
on success, and with the section's fields untouched otherwise. -/
def sectionImageTask (s : DetailSection) (o : FetchOutcome)
    (upload : Except String String) : DetailSection :=
  match generateSectionImage o upload with
  | .ok imageUrl => { s with imageUrl := some imageUrl, isGenerating := some false }
  | .error _ => { s with isGenerating := some false }

/-- The `thumbnailPromise` (geminiService.ts lines 428-438): only issued
when a `thumbnailConfig` is present; its `.catch` maps any rejection of
`generateThumbnail` to `undefined` (no thumbnail). -/
def thumbnailTask (pd : ProductData) (o : FetchOutcome)
    (upload : Except String String) : Option Thumbnail :=
  match pd.thumbnailConfig with
  | some _ =>
      match generateThumbnail o upload with
      | .ok thumbnailUrl => some ⟨thumbnailUrl, pd.name ++ " thumbnail"⟩
      | .error _ => none
  | none => none

/-- The fan-out/fan-in stage of `generateFullDetailPage` (lines 403-455):
`Promise.all` over the per-section tasks and the thumbnail task.  Each
request's outcome is indexed by the section's position (`env`/`uploadEnv`);
since every joined promise resolves (see `sectionImageTask` and
`thumbnailTask`), the join itself cannot reject. -/
def generateImagesPhase (sections : List DetailSection) (pd : ProductData)
    (env : Nat → FetchOutcome) (uploadEnv : Nat → Except String String)
    (thumbO : FetchOutcome) (thumbU : Except String String) :
    GeneratedDetailPage :=
  { sections := sections.mapIdx (fun i s => sectionImageTask s (env i) (uploadEnv i))
    thumbnail := thumbnailTask pd thumbO thumbU }

/-- geminiService.ts `generateFullDetailPage` (lines 394-455): sequential
planning step followed by the concurrent image phase; a planning rejection
propagates, and the image phase resolves unconditionally. -/
def generateFullDetailPage (pd : ProductData) (planFetchO : PlanFetch)
    (parse : String → ParsedJson) (env : Nat → FetchOutcome)
    (uploadEnv : Nat → Except String String) (thumbO : FetchOutcome)
    (thumbU : Except String String) : Except String GeneratedDetailPage :=
  (planDetailPage pd planFetchO parse).map
    (fun sections => generateImagesPhase sections pd env uploadEnv thumbO thumbU)

/-! ### Single-section regenerate (src/App.tsx `handleSectionRegenerate`) -/

/-- The first `setState` of App.tsx `handleSectionRegenerate` (lines
302-310): mark the targeted section as generating, touching nothing else. -/
def markSectionGenerating (sectionId : String) (page : GeneratedDetailPage) :
    GeneratedDetailPage :=
  { page with sections := page.sections.map (fun s =>
      if s.id == sectionId then { s with isGenerating := some true } else s) }

/-- The success `setState` (lines 314-322): write the fresh image URL and
clear the flag on the targeted section. -/
def setSectionImage (sectionId newImageUrl : String)
    (page : GeneratedDetailPage) : GeneratedDetailPage :=
  { page with sections := page.sections.map (fun s =>
      if s.id == sectionId then
        { s with imageUrl := some newImageUrl, isGenerating := some false }
      else s) }

/-- The failure-path `setState` (lines 325-333): clear the flag on the
targeted section, leaving its `imageUrl` as it was. -/
def clearSectionGenerating (sectionId : String) (page : GeneratedDetailPage) :
    GeneratedDetailPage :=
  { page with sections := page.sections.map (fun s =>
      if s.id == sectionId then { s with isGenerating := some false } else s) }

/-- App.tsx `handleSectionRegenerate` (lines 295-340): find the section,
mark it generating, await `regenerateSection`, then either store the new
image or (on rejection) only clear the flag. -/
def handleSectionRegenerate (page : GeneratedDetailPage) (sectionId : String)
    (o : FetchOutcome) (upload : Except String String) : GeneratedDetailPage :=
  match page.sections.find? (fun s => s.id == sectionId) with
  | none => page
  | some _ =>
      let marked := markSectionGenerating sectionId page
      match regenerateSection o upload with
      | .ok newImageUrl => setSectionImage sectionId newImageUrl marked
      | .error _ => clearSectionGenerating sectionId marked

/-! ### Markup export (src/components/DetailPagePreview.tsx `handleCopyHTML`) -/

/-- One iteration of the `handleCopyHTML` loop (part_000 lines 421-428):
a section contributes an image block exactly when its `imageUrl` is truthy
and not a data URI; otherwise it contributes nothing. -/
def copyHTMLSectionFragment (s : DetailSection) : String :=
  match s.imageUrl with
  | none => ""
  | some imageUrl =>
      if imageUrl == "" then ""
      else
        let imgSrc := if strStartsWith imageUrl "data:" then "" else imageUrl
        if imgSrc == "" then ""
        else
          "<div style=\"text-align:center;margin:0;\"><img src=\"" ++ imgSrc ++
            "\" style=\"max-width:100%;height:auto;\" /></div>"

/-- part_000 `handleCopyHTML` (lines 417-436): the loop appends each
visible section's fragment to the wrapper opening, then the closing tag.
Nothing else is emitted (the product title/price and section copy are not
written into the markup). -/
def handleCopyHTML (visibleSections : List DetailSection) : String :=
  (visibleSections.foldl (fun html s => html ++ copyHTMLSectionFragment s)
      "<div style=\"max-width:600px;margin:0 auto;font-family:\x27Malgun Gothic\x27,sans-serif;background:#fff;\">")
    ++ "</div>"

/-! ### Text-style resolver (src/services/categoryThemes.ts, part_002) -/

/-- part_002 `TextStyleConfig` (lines 166-191). -/
structure TextStyleConfig where
  mainSize : String
  mainWeight : String
  mainStyle : String
  mainSpacing : String
  subSize : String
  subWeight : String
  subStyle : String
  alignment : String
  verticalPosition : String
  padding : String
  gap : String
  showBadge : Bool
  badgeText : Option String
  decoration : Option String
deriving DecidableEq, Repr

/-- The `hook` entry of `LOGIC_TYPE_STYLES`. -/
def hookStyle : TextStyleConfig :=
  { mainSize := "text-3xl md:text-5xl lg:text-6xl"
    mainWeight := "font-black"
    mainStyle := ""
    mainSpacing := "tracking-tight"
    subSize := "text-lg md:text-xl"
    subWeight := "font-medium"
    subStyle := ""
    alignment := "center"
    verticalPosition := "center"
    padding := "p-8 md:p-12"
    gap := "mt-4 md:mt-6"
    showBadge := false
    badgeText := none
    decoration := some "underline decoration-4 underline-offset-8" }

/-- The `solution` entry of `LOGIC_TYPE_STYLES` (also the fallback of
`getTextStyle`). -/
def solutionStyle : TextStyleConfig :=
  { mainSize := "text-2xl md:text-4xl"
    mainWeight := "font-bold"
    mainStyle := ""
    mainSpacing := "tracking-normal"
    subSize := "text-base md:text-lg"
    subWeight := "font-normal"
    subStyle := ""
    alignment := "center"
    verticalPosition := "center"
    padding := "p-6 md:p-10"
    gap := "mt-3 md:mt-4"
    showBadge := true
    badgeText := some "SOLUTION"
    decoration := none }

/-- The `clarity` entry of `LOGIC_TYPE_STYLES`. -/
def clarityStyle : TextStyleConfig :=
  { mainSize := "text-lg md:text-2xl"
    mainWeight := "font-semibold"
    mainStyle := ""
    mainSpacing := "tracking-wide"
    subSize := "text-sm md:text-base"
    subWeight := "font-normal"
    subStyle := ""
    alignment := "left"
    verticalPosition := "bottom"
    padding := "p-4 md:p-6"
    gap := "mt-2"
    showBadge := true
    badgeText := some "SPEC"
    decoration := none }

/-- The `socialProof` entry of `LOGIC_TYPE_STYLES`. -/
def socialProofStyle : TextStyleConfig :=
  { mainSize := "text-xl md:text-3xl"
    mainWeight := "font-light"
    mainStyle := "italic"
    mainSpacing := "tracking-normal"
    subSize := "text-sm md:text-base"
    subWeight := "font-medium"
    subStyle := ""
    alignment := "center"
    verticalPosition := "bottom"
    padding := "p-8 md:p-12"
    gap := "mt-4"
    showBadge := false
    badgeText := none
    decoration := some "before:content-[\"\"\"] after:content-[\"\"\"]" }

/-- The `service` entry of `LOGIC_TYPE_STYLES`. -/
def serviceStyle : TextStyleConfig :=
  { mainSize := "text-xl md:text-3xl"
    mainWeight := "font-bold"
    mainStyle := ""
    mainSpacing := "tracking-normal"
    subSize := "text-base md:text-lg"
    subWeight := "font-normal"
    subStyle := ""
    alignment := "center"
    verticalPosition := "top"
    padding := "p-6 md:p-8"
    gap := "mt-3"
    showBadge := true
    badgeText := some "HOW TO"
    decoration := none }

/-- The `riskReversal` entry of `LOGIC_TYPE_STYLES`. -/
def riskReversalStyle : TextStyleConfig :=
  { mainSize := "text-xl md:text-2xl"
    mainWeight := "font-semibold"
    mainStyle := ""
    mainSpacing := "tracking-wide"
    subSize := "text-sm md:text-base"
    subWeight := "font-normal"
    subStyle := ""
    alignment := "center"
    verticalPosition := "bottom"
    padding := "p-6 md:p-8"
    gap := "mt-2"
    showBadge := true
    badgeText := some "✓ GUARANTEE"
    decoration := none }

/-- The `brandStory` entry of `LOGIC_TYPE_STYLES`. -/
def brandStoryStyle : TextStyleConfig :=
  { mainSize := "text-2xl md:text-4xl"
    mainWeight := "font-light"
    mainStyle := ""
    mainSpacing := "tracking-widest"
    subSize := "text-base md:text-lg"
    subWeight := "font-light"
    subStyle := "italic"
    alignment := "center"
    verticalPosition := "center"
    padding := "p-10 md:p-16"
    gap := "mt-6"
    showBadge := false
    badgeText := none
    decoration := none }

/-- The `comparison` entry of `LOGIC_TYPE_STYLES`. -/
def comparisonStyle : TextStyleConfig :=
  { mainSize := "text-xl md:text-3xl"
    mainWeight := "font-bold"
    mainStyle := ""
    mainSpacing := "tracking-tight"
    subSize := "text-sm md:text-base"
    subWeight := "font-medium"
    subStyle := ""
    alignment := "left"
    verticalPosition := "center"
    padding := "p-6 md:p-8"
    gap := "mt-3"
    showBadge := true
    badgeText := some "VS"
    decoration := none }

/-- part_002 `LOGIC_TYPE_STYLES` (lines 193-328): the object literal's own
key/value pairs.  Bracket access on the object is modelled by
`logicTypeStylesAccess`, which also covers the properties the literal
inherits from `Object.prototype`. -/
def LOGIC_TYPE_STYLES : List (String × TextStyleConfig) :=
  [("hook", hookStyle), ("solution", solutionStyle), ("clarity", clarityStyle),
   ("socialProof", socialProofStyle), ("service", serviceStyle),
   ("riskReversal", riskReversalStyle), ("brandStory", brandStoryStyle),
   ("comparison", comparisonStyle)]

/-- The property names every plain JavaScript object literal inherits from
`Object.prototype`; bracket access finds these (all truthy values: methods,
and the prototype object itself for `__proto__`) before reaching
`undefined`. -/
def objectPrototypeKeys : List String :=
  ["constructor", "hasOwnProperty", "isPrototypeOf", "propertyIsEnumerable",
   "toLocaleString", "toString", "valueOf", "__proto__", "__defineGetter__",
   "__defineSetter__", "__lookupGetter__", "__lookupSetter__"]

/-- A JavaScript property-access result on the style table: one of the
literal's own style entries, a truthy member inherited from
`Object.prototype` (not a style descriptor), or `undefined` (falsy). -/
inductive StyleLookup where
  | style (c : TextStyleConfig)
  | inherited (key : String)
  | jsUndefined
deriving DecidableEq, Repr

/-- The bracket access `LOGIC_TYPE_STYLES[key]` of part_002 line 332:
own properties shadow the prototype chain, inherited `Object.prototype`
properties come next, and everything else is `undefined`. -/
def logicTypeStylesAccess (key : String) : StyleLookup :=
  match LOGIC_TYPE_STYLES.lookup key with
  | some c => .style c
  | none => if key ∈ objectPrototypeKeys then .inherited key else .jsUndefined

/-- part_002 `getTextStyle` (lines 331-333):
`LOGIC_TYPE_STYLES[logicType] || LOGIC_TYPE_STYLES['solution']` — the `||`
takes the fallback only when the access is falsy (`undefined`), so a truthy
inherited `Object.prototype` member is returned as-is. -/
def getTextStyle (logicType : String) : StyleLookup :=
  match logicTypeStylesAccess logicType with
  | .jsUndefined => logicTypeStylesAccess "solution"
  | v => v

/-! ### Spec-side definitions (used only to compare against the code) -/

/-- Modelled from the spec's words for claim C4: "choose 9 when
price > 100,000 or category ∈ beauty, digital/IT; else 7 when
price > 30,000; else 5". -/
def specAutoLength (price : Int) (category : String) : Nat :=
  if 100000 < price ∨ category = "뷰티/화장품" ∨ category = "디지털/IT" then 9
  else if 30000 < price then 7
  else 5

/-- Modelled from the spec's words for claim C7: the image source a visible
section contributes to the markup export — its `imageUrl` when that is a
nonempty non-inline URL, nothing otherwise. -/
def imgSrcOfSection (s : DetailSection) : Option String :=
  match s.imageUrl with
  | some u => if u != "" && !strStartsWith u "data:" then some u else none
  | none => none

/-- Modelled from the spec's words for claim C7: the image sources the
markup export is claimed to embed, in order. -/
def includedImgSrcs (visibleSections : List DetailSection) : List String :=
  visibleSections.filterMap imgSrcOfSection

/-- The image block emitted by `handleCopyHTML` for one embedded source. -/
def imgDivBlock (u : String) : String :=
  "<div style=\"text-align:center;margin:0;\"><img src=\"" ++ u ++
    "\" style=\"max-width:100%;height:auto;\" /></div>"

/-! ### Concrete sample data for witnesses and counterexamples -/

/-- A well-formed planning-response entry with the `hook` role. -/
def sampleRawSection : RawSection :=
  { order := some 1, logicType := "hook", title := "섹션 제목",
    keyMessage := "메인 카피", subMessage := none,
    visualPrompt := "English prompt", textPosition := some "center",
    textStyle := some "light" }

/-- The planner's output for `sampleRawSection` at index 0. -/
def plannedSampleSection : DetailSection :=
  { id := "section-1", order := 1, logicType := "hook", title := "섹션 제목",
    keyMessage := "메인 카피", subMessage := none,
    visualPrompt := "English prompt", imageUrl := none,
    isGenerating := some false, textPosition := "center",
    textStyle := "light" }

/-- A response entry carrying the `solution` role in a position where the
template expects `hook`. -/
def solutionRawSection : RawSection :=
  { sampleRawSection with logicType := "solution", order := some 2 }

/-- The planner's output for `solutionRawSection` at index 0. -/
def plannedSolutionSection : DetailSection :=
  { plannedSampleSection with logicType := "solution", order := 2 }

/-- A sample product requesting an explicit 5-section page. -/
def sampleProduct : ProductData :=
  { name := "테스트상품", images := [], price := 12900,
    pageLength := some .len5, category := some "기타",
    thumbnailConfig := none }

/-- A sample thumbnail configuration. -/
def sampleThumbConfig : ThumbnailConfig :=
  { style := .clean, includeHand := false, includeModel := false,
    textOverlay := "", textPosition := "center" }

/-- `sampleProduct` with a thumbnail requested. -/
def sampleProductThumb : ProductData :=
  { sampleProduct with thumbnailConfig := some sampleThumbConfig }

/-- A section holding a previously generated remote image. -/
def visibleRemoteSection : DetailSection :=
  { plannedSampleSection with imageUrl := some "https://img.example/1.png" }

/-- A section whose image is still an inline data URI. -/
def visibleInlineSection : DetailSection :=
  { plannedSolutionSection with
      id := "section-2"
      imageUrl := some "data:image/png;base64,AAA" }

/-- A two-section page whose first section has a previously generated
remote image. -/
def oldImagePage : GeneratedDetailPage :=
  { sections := [visibleRemoteSection,
      { plannedSolutionSection with id := "section-2" }],
    thumbnail := none }

/-- A planning response conforming to the length-5 template. -/
def conformingRawSections : List RawSection :=
  (SALES_LOGIC_FRAMEWORK 5).map (fun r => { sampleRawSection with logicType := r })

/-! ## Theorems -/

/-! ### Shared lemmas -/

set_option maxRecDepth 8000 in
/-- The SVG placeholder source contains Korean text, so `btoa` — and with
it `getFallbackImage()` — throws instead of producing the placeholder. -/
theorem getFallbackImage_eq_error :
    getFallbackImage = .error "InvalidCharacterError" := rfl

/-- Whenever the underlying API call rejects, `generateSectionImage` also
rejects: with the credits sentinel when that was the cause, and otherwise
with the `btoa` exception escaping the placeholder construction. -/
theorem generateSectionImage_error_cases (o : FetchOutcome)
    (u : Except String String) (e : String)
    (h : generateImageWithAPIYI o u = .error e) :
    generateSectionImage o u =
      .error (if e == "CREDITS_INSUFFICIENT" then e else "InvalidCharacterError") := by
  simp only [generateSectionImage, h]
  by_cases hc : (e == "CREDITS_INSUFFICIENT") = true
  · simp [hc]
  · simp only [Bool.not_eq_true] at hc
    simp [hc, getFallbackImage_eq_error]

/-- `generateSectionImage` forwards a successful generation unchanged. -/
theorem generateSectionImage_ok (o : FetchOutcome) (u : Except String String)
    (url : String) (h : generateImageWithAPIYI o u = .ok url) :
    generateSectionImage o u = .ok url := by
  simp [generateSectionImage, h]

/-- Same as `generateSectionImage_error_cases` for the thumbnail path. -/
theorem generateThumbnail_error_cases (o : FetchOutcome)
    (u : Except String String) (e : String)
    (h : generateImageWithAPIYI o u = .error e) :
    generateThumbnail o u =
      .error (if e == "CREDITS_INSUFFICIENT" then e else "InvalidCharacterError") := by
  simp only [generateThumbnail, h]
  by_cases hc : (e == "CREDITS_INSUFFICIENT") = true
  · simp [hc]
  · simp only [Bool.not_eq_true] at hc
    simp [hc, getFallbackImage_eq_error]

/-- The resolved page length is always one of 5, 7, 9, and the framework
table has a template of exactly that length for it. -/
theorem framework_length_resolve (pl : Option PageLength) (price : Int)
    (category : Option String) :
    (SALES_LOGIC_FRAMEWORK (resolveTargetLength pl price category)).length =
      resolveTargetLength pl price category := by
  match pl with
  | none => rfl
  | some .len5 => rfl
  | some .len7 => rfl
  | some .len9 => rfl
  | some .auto =>
      simp only [resolveTargetLength]
      split
      · rfl
      · split <;> rfl

/-! ### C4 — auto page-length selection -/

/-- C4: page-length resolution matches the spec's threshold table exactly:
for `auto` it is a pure function of (price, category) choosing 9 above
100,000 or for the beauty/digital categories, 7 above 30,000, else 5 (with
strict comparisons, so the boundary prices select the lower tier), and an
explicit 5/7/9 request is used unchanged. -/
theorem auto_page_length_matches_spec :
    (∀ (price : Int) (category : String),
        resolveTargetLength (some .auto) price (some category) =
          specAutoLength price category)
    ∧ (∀ (price : Int) (category : Option String),
        resolveTargetLength (some .len5) price category = 5
        ∧ resolveTargetLength (some .len7) price category = 7
        ∧ resolveTargetLength (some .len9) price category = 9)
    ∧ resolveTargetLength (some .auto) 100000 (some "기타") = 7
    ∧ resolveTargetLength (some .auto) 100001 (some "기타") = 9
    ∧ resolveTargetLength (some .auto) 30000 (some "기타") = 5
    ∧ resolveTargetLength (some .auto) 30001 (some "기타") = 7 := by
  refine ⟨?_, ?_, by decide, by decide, by decide, by decide⟩
  · intro price category
    simp [resolveTargetLength, specAutoLength]
  · intro price category
    exact ⟨rfl, rfl, rfl⟩

/-! ### C9 — text-style resolution -/

/-- A string that is none of the table's own keys looks up to `none`. -/
theorem lookup_none_of_not_role (t : String)
    (ht : t ∉ LOGIC_TYPE_STYLES.map Prod.fst) :
    LOGIC_TYPE_STYLES.lookup t = none := by
  simp only [LOGIC_TYPE_STYLES, List.map_cons, List.map_nil, List.mem_cons,
    List.not_mem_nil, or_false, not_or] at ht
  obtain ⟨h1, h2, h3, h4, h5, h6, h7, h8⟩ := ht
  have toFalse : ∀ (a b : String), ¬a = b → (a == b) = false := by
    intro a b h
    cases hb : a == b
    · rfl
    · exact absurd (eq_of_beq hb) h
  simp only [LOGIC_TYPE_STYLES, List.lookup,
    toFalse t "hook" h1, toFalse t "solution" h2, toFalse t "clarity" h3,
    toFalse t "socialProof" h4, toFalse t "service" h5,
    toFalse t "riskReversal" h6, toFalse t "brandStory" h7,
    toFalse t "comparison" h8]

/-- C9 counterexample: `"toString"` is not one of the 8 roles, yet the
bracket access finds the truthy inherited `Object.prototype.toString`, so
the `||` fallback is not taken: the result is the inherited member, not the
solution descriptor (and not a style descriptor at all). -/
theorem getTextStyle_inherited_member_counterexample :
    "toString" ∉ LOGIC_TYPE_STYLES.map Prod.fst
    ∧ getTextStyle "toString" = .inherited "toString"
    ∧ getTextStyle "solution" = .style solutionStyle
    ∧ getTextStyle "toString" ≠ getTextStyle "solution" :=
  ⟨by decide, rfl, rfl, by decide⟩

/-- C9 amended: `getTextStyle` is a pure, total, deterministic function
that never errors; `"hook"` always resolves to the fixed hook descriptor;
every string that is neither one of the table's own keys nor an inherited
`Object.prototype` property name resolves to the same descriptor as
`"solution"`; but for the inherited property names the access returns the
truthy inherited member itself, so the fallback is not taken. -/
theorem getTextStyle_prototype_aware_resolution :
    getTextStyle "hook" = .style hookStyle
    ∧ getTextStyle "solution" = .style solutionStyle
    ∧ (∀ t : String, t ∉ LOGIC_TYPE_STYLES.map Prod.fst →
        t ∉ objectPrototypeKeys → getTextStyle t = getTextStyle "solution")
    ∧ (∀ t : String, t ∉ LOGIC_TYPE_STYLES.map Prod.fst →
        t ∈ objectPrototypeKeys → getTextStyle t = .inherited t) := by
  refine ⟨rfl, rfl, ?_, ?_⟩
  · intro t h1 h2
    have hl := lookup_none_of_not_role t h1
    simp only [getTextStyle, logicTypeStylesAccess, hl]
    rw [if_neg h2]
    rfl
  · intro t h1 h2
    have hl := lookup_none_of_not_role t h1
    simp only [getTextStyle, logicTypeStylesAccess, hl]
    rw [if_pos h2]

/-- C9 witness: "unknown-role" (outside both the table and the prototype
chain) falls back to the solution descriptor, while "toString" (inherited)
resolves to the inherited member. -/
theorem getTextStyle_resolution_instances :
    ("unknown-role" ∉ LOGIC_TYPE_STYLES.map Prod.fst
      ∧ "unknown-role" ∉ objectPrototypeKeys
      ∧ getTextStyle "unknown-role" = getTextStyle "solution")
    ∧ ("toString" ∉ LOGIC_TYPE_STYLES.map Prod.fst
      ∧ "toString" ∈ objectPrototypeKeys
      ∧ getTextStyle "toString" = .inherited "toString") :=
  ⟨⟨by decide, by decide,
      getTextStyle_prototype_aware_resolution.2.2.1 "unknown-role"
        (by decide) (by decide)⟩,
    ⟨by decide, by decide,
      getTextStyle_prototype_aware_resolution.2.2.2 "toString"
        (by decide) (by decide)⟩⟩

/-! ### C8 — image-store persist -/

/-- C8: the persist operation (the `uploadToCloudinary` adapter together
with its caller's fallback) returns a remote-URL input unchanged without
attempting an upload, and returns the original inline representation, not
an error, whenever the upload round trip fails — in fact for every input:
on a failed upload outcome the caller always keeps its original string. -/
theorem persist_noop_on_url_and_inline_on_failure :
    (∀ (img : String) (fetchResult : Except String String),
        strStartsWith img "http" = true →
          uploadToCloudinary img fetchResult = .ok img
          ∧ persistImage img fetchResult = img)
    ∧ (∀ (img e : String), persistImage img (.error e) = img) := by
  constructor
  · intro img fetchResult h
    refine ⟨by simp [uploadToCloudinary, h], ?_⟩
    simp [persistImage, uploadToCloudinary, h]
  · intro img e
    simp only [persistImage, uploadToCloudinary]
    by_cases h1 : strStartsWith img "http" = true
    · simp [h1]
    · by_cases h2 : strIncludes img "image/svg+xml" = true
      · simp [h1, h2]
      · simp [h1, h2]

/-! ### C1 — quota exhaustion during the batch -/

/-- C1 (code-bug evaluation): a section request failing with HTTP 429
produces the distinguished sentinel `CREDITS_INSUFFICIENT`, and both
`generateSectionImage` and `generateThumbnail` rethrow it — yet
`generateFullDetailPage` still resolves normally (`.ok`), with the failed
section imageless and no thumbnail: the per-section catch-all (lines
418-424) and the thumbnail `.catch` (lines 434-437) swallow the sentinel,
so the call never rejects with it. -/
theorem credits_sentinel_swallowed_by_batch :
    generateImageWithAPIYI (.httpError 429 "Too Many Requests") (.error "unused")
        = .error "CREDITS_INSUFFICIENT"
    ∧ generateSectionImage (.httpError 429 "Too Many Requests") (.error "unused")
        = .error "CREDITS_INSUFFICIENT"
    ∧ generateThumbnail (.httpError 429 "Too Many Requests") (.error "unused")
        = .error "CREDITS_INSUFFICIENT"
    ∧ generateFullDetailPage sampleProductThumb
        (.success (String.mk [lbrace, rbrace]))
        (fun _ => .obj [sampleRawSection])
        (fun _ => .httpError 429 "Too Many Requests")
        (fun _ => .error "unused")
        (.httpError 429 "Too Many Requests") (.error "unused")
        = .ok { sections := [plannedSampleSection], thumbnail := none } :=
  ⟨rfl, rfl, rfl, rfl⟩

/-! ### C2 — planner validation -/

/-- C2 counterexample: with the resolved length 5, a parsable response
whose `sections` array has one entry is accepted — planning succeeds with a
single section instead of failing on the length mismatch. -/
theorem plan_accepts_mismatched_length :
    resolveTargetLength sampleProduct.pageLength sampleProduct.price
        sampleProduct.category = 5
    ∧ planDetailPage sampleProduct (.success (String.mk [lbrace, rbrace]))
        (fun _ => .obj [sampleRawSection]) = .ok [plannedSampleSection]
    ∧ [plannedSampleSection].length ≠ 5 :=
  ⟨rfl, rfl, by decide⟩

/-- C2 amended: a planning-call failure, a response without a brace span,
an unparsable span, and a JSON value without a `sections` array each fail
the whole planning step with an error (no partial list) — but a parsable
`sections` array of any length is accepted as-is: the output has exactly
the response's length and copies its entries, with no validation against
the role sequence. -/
theorem plan_hard_failures_but_no_length_check
    (pd : ProductData) (parse : String → ParsedJson) (body text jsonStr : String)
    (secs : List RawSection) :
    planDetailPage pd (.httpError body) parse = .error "상세페이지 기획 생성 실패"
    ∧ (extractJsonSpan text = none →
        planDetailPage pd (.success text) parse
          = .error "기획 생성 실패: JSON 형식이 아닙니다")
    ∧ (extractJsonSpan text = some jsonStr → parse jsonStr = .notJson →
        planDetailPage pd (.success text) parse = .error "SyntaxError: JSON.parse")
    ∧ (extractJsonSpan text = some jsonStr → parse jsonStr = .objWithoutSections →
        planDetailPage pd (.success text) parse = .error "TypeError: parsed.sections")
    ∧ (extractJsonSpan text = some jsonStr → parse jsonStr = .obj secs →
        planDetailPage pd (.success text) parse = .ok (secs.mapIdx planSectionOfRaw)
        ∧ (secs.mapIdx planSectionOfRaw).length = secs.length
        ∧ ∀ i : Nat,
            ((secs.mapIdx planSectionOfRaw)[i]?).map DetailSection.logicType
              = (secs[i]?).map RawSection.logicType) := by
  refine ⟨rfl, ?_, ?_, ?_, ?_⟩
  · intro h
    simp [planDetailPage, h]
  · intro h hp
    simp [planDetailPage, h, hp]
  · intro h hp
    simp [planDetailPage, h, hp]
  · intro h hp
    refine ⟨by simp [planDetailPage, h, hp], by simp, ?_⟩
    intro i
    simp only [List.getElem?_mapIdx]
    cases secs[i]? <;> rfl

/-- C2 witness: the failure modes and the unvalidated acceptance at
concrete inputs. -/
theorem plan_validation_instances :
    planDetailPage sampleProduct (.httpError "oops") (fun _ => .obj [])
        = .error "상세페이지 기획 생성 실패"
    ∧ planDetailPage sampleProduct (.success "no json here") (fun _ => .obj [])
        = .error "기획 생성 실패: JSON 형식이 아닙니다"
    ∧ (planDetailPage sampleProduct (.success (String.mk [lbrace, rbrace]))
          (fun _ => .obj [sampleRawSection])
          = .ok ([sampleRawSection].mapIdx planSectionOfRaw)
        ∧ ([sampleRawSection].mapIdx planSectionOfRaw).length
          = [sampleRawSection].length
        ∧ ∀ i : Nat,
            (([sampleRawSection].mapIdx planSectionOfRaw)[i]?).map
                DetailSection.logicType
              = ([sampleRawSection][i]?).map RawSection.logicType) :=
  ⟨(plan_hard_failures_but_no_length_check sampleProduct (fun _ => .obj [])
      "oops" "x" "x" []).1,
    (plan_hard_failures_but_no_length_check sampleProduct (fun _ => .obj [])
      "oops" "no json here" "x" []).2.1 (by decide),
    (plan_hard_failures_but_no_length_check sampleProduct
      (fun _ => .obj [sampleRawSection]) "oops" (String.mk [lbrace, rbrace])
      (String.mk [lbrace, rbrace]) [sampleRawSection]).2.2.2.2 rfl rfl⟩

/-! ### C5 — role templates -/

/-- C5 counterexample: the planner does not enforce the template on its
output — a response whose single entry carries the `solution` role yields
a first section whose `logicType` differs from the template's first role
(`hook`), and a section count differing from the resolved length. -/
theorem plan_copies_response_roles :
    planDetailPage sampleProduct (.success (String.mk [lbrace, rbrace]))
        (fun _ => .obj [solutionRawSection]) = .ok [plannedSolutionSection]
    ∧ (SALES_LOGIC_FRAMEWORK (resolveTargetLength sampleProduct.pageLength
        sampleProduct.price sampleProduct.category)).headD "" = "hook"
    ∧ plannedSolutionSection.logicType ≠ "hook"
    ∧ [plannedSolutionSection].length
        ≠ (SALES_LOGIC_FRAMEWORK (resolveTargetLength sampleProduct.pageLength
            sampleProduct.price sampleProduct.category)).length :=
  ⟨rfl, rfl, by decide, by decide⟩

/-- C5 amended: the fixed role templates have exactly their page length's
entries, the length-9 template is exactly the documented sequence, the
planner embeds the resolved template into its prompt (one line per role, in
order), and whenever the response's entries carry exactly the template's
roles element-for-element, the output has the resolved length and its
`logicType`s equal the template — but this is conditional on the response,
not enforced by the planner. -/
theorem role_templates_fixed_and_planner_copies
    (pd : ProductData) (text jsonStr : String) (parse : String → ParsedJson)
    (secs : List RawSection) :
    ((SALES_LOGIC_FRAMEWORK 5).length = 5 ∧ (SALES_LOGIC_FRAMEWORK 7).length = 7
      ∧ (SALES_LOGIC_FRAMEWORK 9).length = 9)
    ∧ SALES_LOGIC_FRAMEWORK 9 =
        ["hook", "solution", "clarity", "socialProof", "service", "brandStory",
          "comparison", "riskReversal", "service"]
    ∧ (planPromptRoleLines pd).length
        = resolveTargetLength pd.pageLength pd.price pd.category
    ∧ (extractJsonSpan text = some jsonStr → parse jsonStr = .obj secs →
        secs.map RawSection.logicType
          = SALES_LOGIC_FRAMEWORK
              (resolveTargetLength pd.pageLength pd.price pd.category) →
        planDetailPage pd (.success text) parse = .ok (secs.mapIdx planSectionOfRaw)
        ∧ (secs.mapIdx planSectionOfRaw).length
            = resolveTargetLength pd.pageLength pd.price pd.category
        ∧ (secs.mapIdx planSectionOfRaw).map DetailSection.logicType
            = SALES_LOGIC_FRAMEWORK
                (resolveTargetLength pd.pageLength pd.price pd.category)) := by
  refine ⟨⟨rfl, rfl, rfl⟩, rfl, ?_, ?_⟩
  · simp only [planPromptRoleLines, List.length_mapIdx]
    exact framework_length_resolve pd.pageLength pd.price pd.category
  · intro h hp hconf
    have hcopy : (secs.mapIdx planSectionOfRaw).map DetailSection.logicType
        = secs.map RawSection.logicType := by
      apply List.ext_getElem?
      intro i
      simp only [List.getElem?_map, List.getElem?_mapIdx, Option.map_map]
      cases secs[i]? <;> rfl
    refine ⟨by simp [planDetailPage, h, hp], ?_, hcopy.trans hconf⟩
    have hlen : secs.length
        = (SALES_LOGIC_FRAMEWORK
            (resolveTargetLength pd.pageLength pd.price pd.category)).length :=
      by rw [← hconf, List.length_map]
    rw [List.length_mapIdx, hlen,
      framework_length_resolve pd.pageLength pd.price pd.category]

/-- C5 witness: a conforming length-5 response yields sections whose roles
equal the template, in order. -/
theorem plan_follows_template_instance :
    conformingRawSections.map RawSection.logicType = SALES_LOGIC_FRAMEWORK 5
    ∧ (planDetailPage sampleProduct (.success (String.mk [lbrace, rbrace]))
          (fun _ => .obj conformingRawSections)
          = .ok (conformingRawSections.mapIdx planSectionOfRaw)
        ∧ (conformingRawSections.mapIdx planSectionOfRaw).length
            = resolveTargetLength sampleProduct.pageLength sampleProduct.price
                sampleProduct.category
        ∧ (conformingRawSections.mapIdx planSectionOfRaw).map
              DetailSection.logicType
            = SALES_LOGIC_FRAMEWORK
                (resolveTargetLength sampleProduct.pageLength sampleProduct.price
                  sampleProduct.category)) :=
  ⟨by decide,
    (role_templates_fixed_and_planner_copies sampleProduct
        (String.mk [lbrace, rbrace]) (String.mk [lbrace, rbrace])
        (fun _ => .obj conformingRawSections) conformingRawSections).2.2.2
      rfl rfl (by decide)⟩

/-- C8 witness: a remote URL is passed through untouched, and a data-URI
image whose upload fails is returned unchanged. -/
theorem persist_instances :
    (uploadToCloudinary "https://cdn.example/a.png" (.error "down")
        = .ok "https://cdn.example/a.png"
      ∧ persistImage "https://cdn.example/a.png" (.error "down")
        = "https://cdn.example/a.png")
    ∧ persistImage "data:image/png;base64,AAA" (.error "down")
      = "data:image/png;base64,AAA" :=
  ⟨persist_noop_on_url_and_inline_on_failure.1 "https://cdn.example/a.png"
      (.error "down") (by decide),
    persist_noop_on_url_and_inline_on_failure.2 "data:image/png;base64,AAA"
      "down"⟩

/-! ### C3 — batch failure isolation -/

/-- C3: once planning has produced `N` fresh sections, the batch always
resolves (`.ok`) with exactly `N` sections: a section whose request failed
(for any reason) keeps its absent image and gets `isGenerating=false`, a
section whose request succeeded carries the returned `imageUrl`, each
section's result depends only on its own request's outcome, and an
ordinarily-failing thumbnail request yields no thumbnail. -/
theorem batch_isolated_failures_yield_full_page
    (pd : ProductData) (planF : PlanFetch) (parse : String → ParsedJson)
    (sections : List DetailSection)
    (env : Nat → FetchOutcome) (uploadEnv : Nat → Except String String)
    (thumbO : FetchOutcome) (thumbU : Except String String)
    (hplan : planDetailPage pd planF parse = .ok sections)
    (hfresh : ∀ s ∈ sections, s.imageUrl = none)
    (hthumbReq : pd.thumbnailConfig.isSome = true)
    (hthumb : ∃ e, generateImageWithAPIYI thumbO thumbU = .error e
        ∧ e ≠ "CREDITS_INSUFFICIENT") :
    ∃ page, generateFullDetailPage pd planF parse env uploadEnv thumbO thumbU
        = .ok page
      ∧ page.sections.length = sections.length
      ∧ (∀ (i : Nat) (s : DetailSection), sections[i]? = some s →
          (∀ e, generateImageWithAPIYI (env i) (uploadEnv i) = .error e →
            page.sections[i]? = some { s with isGenerating := some false }
            ∧ (∀ s2, page.sections[i]? = some s2 → s2.imageUrl = none))
          ∧ (∀ url, generateImageWithAPIYI (env i) (uploadEnv i) = .ok url →
            page.sections[i]?
              = some { s with imageUrl := some url, isGenerating := some false }))
      ∧ page.thumbnail = none := by
  obtain ⟨e, he, hene⟩ := hthumb
  refine ⟨generateImagesPhase sections pd env uploadEnv thumbO thumbU,
    by simp [generateFullDetailPage, hplan, Except.map], ?_, ?_, ?_⟩
  · simp [generateImagesPhase]
  · intro i s hs
    have hsec : (generateImagesPhase sections pd env uploadEnv thumbO
        thumbU).sections[i]? = some (sectionImageTask s (env i) (uploadEnv i)) := by
      simp [generateImagesPhase, List.getElem?_mapIdx, hs]
    constructor
    · intro e2 he2
      have hgen := generateSectionImage_error_cases (env i) (uploadEnv i) e2 he2
      have htask : sectionImageTask s (env i) (uploadEnv i)
          = { s with isGenerating := some false } := by
        simp [sectionImageTask, hgen]
      refine ⟨by rw [hsec, htask], ?_⟩
      intro s2 hs2
      rw [hsec, htask] at hs2
      injection hs2 with h2
      rw [← h2]
      show s.imageUrl = none
      exact hfresh s (List.getElem?_mem hs)
    · intro url hurl
      have hgen := generateSectionImage_ok (env i) (uploadEnv i) url hurl
      rw [hsec]
      simp [sectionImageTask, hgen]
  · obtain ⟨cfg, hcfg⟩ := Option.isSome_iff_exists.mp hthumbReq
    have hth := generateThumbnail_error_cases thumbO thumbU e he
    simp [generateImagesPhase, thumbnailTask, hcfg, hth]

/-- C3 witness: a two-section batch where the first request fails with an
ordinary server error and the second succeeds, with an ordinarily-failing
thumbnail request. -/
theorem batch_isolation_instance :
    ∃ page, generateFullDetailPage sampleProductThumb
        (.success (String.mk [lbrace, rbrace]))
        (fun _ => .obj [sampleRawSection, solutionRawSection])
        (fun i => if i == 0 then .httpError 500 "server error"
          else .success (some ("image/png", "AAA")))
        (fun _ => .ok "https://cdn.example/img.png")
        (.httpError 500 "server error") (.ok "https://cdn.example/t.png")
        = .ok page
      ∧ page.sections.length
          = ([sampleRawSection, solutionRawSection].mapIdx planSectionOfRaw).length
      ∧ (∀ (i : Nat) (s : DetailSection),
          ([sampleRawSection, solutionRawSection].mapIdx
            planSectionOfRaw)[i]? = some s →
          (∀ e, generateImageWithAPIYI
              ((fun i => if i == 0 then .httpError 500 "server error"
                else .success (some ("image/png", "AAA"))) i)
              ((fun _ => .ok "https://cdn.example/img.png") i) = .error e →
            page.sections[i]? = some { s with isGenerating := some false }
            ∧ (∀ s2, page.sections[i]? = some s2 → s2.imageUrl = none))
          ∧ (∀ url, generateImageWithAPIYI
              ((fun i => if i == 0 then .httpError 500 "server error"
                else .success (some ("image/png", "AAA"))) i)
              ((fun _ => .ok "https://cdn.example/img.png") i) = .ok url →
            page.sections[i]?
              = some { s with imageUrl := some url, isGenerating := some false }))
      ∧ page.thumbnail = none :=
  batch_isolated_failures_yield_full_page sampleProductThumb
    (.success (String.mk [lbrace, rbrace]))
    (fun _ => .obj [sampleRawSection, solutionRawSection])
    ([sampleRawSection, solutionRawSection].mapIdx planSectionOfRaw)
    (fun i => if i == 0 then .httpError 500 "server error"
      else .success (some ("image/png", "AAA")))
    (fun _ => .ok "https://cdn.example/img.png")
    (.httpError 500 "server error") (.ok "https://cdn.example/t.png")
    rfl (by decide) rfl
    ⟨"APIYI API 오류: server error", rfl, by decide⟩

/-! ### C6 — failed regenerate keeps the previous image -/

/-- C6: when the regenerate request rejects (and every failing generation
does reject — the quota sentinel is rethrown and the placeholder
construction itself throws, see `generateSectionImage_error_cases`), the
state update only clears `isGenerating` on sections with the targeted id:
every section keeps its stored `imageUrl`, so a previously generated image
is never lost or replaced. -/
theorem regenerate_failure_preserves_previous_image
    (page : GeneratedDetailPage) (sectionId : String)
    (o : FetchOutcome) (u : Except String String) (e : String)
    (herr : regenerateSection o u = .error e) :
    (handleSectionRegenerate page sectionId o u).sections.length
        = page.sections.length
    ∧ (∀ (i : Nat) (s : DetailSection), page.sections[i]? = some s →
        (handleSectionRegenerate page sectionId o u).sections[i]?
          = some (if s.id == sectionId then { s with isGenerating := some false }
              else s))
    ∧ (∀ (i : Nat) (s : DetailSection), page.sections[i]? = some s →
        s.id = sectionId →
        ∃ s2 : DetailSection,
          (handleSectionRegenerate page sectionId o u).sections[i]? = some s2
          ∧ s2.imageUrl = s.imageUrl ∧ s2.isGenerating = some false) := by
  have hmain : ∀ (i : Nat) (s : DetailSection), page.sections[i]? = some s →
      (handleSectionRegenerate page sectionId o u).sections[i]?
        = some (if s.id == sectionId then { s with isGenerating := some false }
            else s) := by
    intro i s hs
    cases hfind : page.sections.find? (fun s => s.id == sectionId) with
    | none =>
        have hres : handleSectionRegenerate page sectionId o u = page := by
          simp [handleSectionRegenerate, hfind]
        have hnf : (s.id == sectionId) = false := by
          have hmem := List.find?_eq_none.mp hfind s (List.getElem?_mem hs)
          cases hb : s.id == sectionId
          · rfl
          · exact absurd hb hmem
        rw [hres, hs, hnf]
        simp
    | some sfound =>
        have hres : handleSectionRegenerate page sectionId o u
            = clearSectionGenerating sectionId (markSectionGenerating sectionId page) := by
          simp [handleSectionRegenerate, hfind, herr]
        rw [hres]
        simp only [clearSectionGenerating, markSectionGenerating,
          List.getElem?_map, hs, Option.map_some']
        cases hb : s.id == sectionId
        · simp [hb]
        · simp [hb]
  have hlen : (handleSectionRegenerate page sectionId o u).sections.length
      = page.sections.length := by
    cases hfind : page.sections.find? (fun s => s.id == sectionId) with
    | none => simp [handleSectionRegenerate, hfind]
    | some sfound =>
        simp [handleSectionRegenerate, hfind, herr, clearSectionGenerating,
          markSectionGenerating]
  refine ⟨hlen, hmain, ?_⟩
  intro i s hs hid
  refine ⟨{ s with isGenerating := some false }, ?_, rfl, rfl⟩
  rw [hmain i s hs, hid]
  simp

set_option maxRecDepth 8000 in
/-- C6 witness: a section holding a previously generated remote image, a
regenerate whose request fails with an ordinary server error (the rejection
is the thrown placeholder-construction error): the section keeps its old
image and its flag is cleared. -/
theorem regenerate_failure_instance :
    regenerateSection (.httpError 500 "kaput") (.ok "unused")
        = .error "InvalidCharacterError"
    ∧ (∃ s2 : DetailSection, (handleSectionRegenerate oldImagePage "section-1"
          (.httpError 500 "kaput") (.ok "unused")).sections[0]? = some s2
        ∧ s2.imageUrl = visibleRemoteSection.imageUrl
        ∧ s2.isGenerating = some false) :=
  ⟨rfl,
    (regenerate_failure_preserves_previous_image oldImagePage "section-1"
        (.httpError 500 "kaput") (.ok "unused") "InvalidCharacterError"
        rfl).2.2 0 visibleRemoteSection rfl rfl⟩

/-! ### C7 — markup export -/

/-- A section's markup fragment is the image block of its included source,
and empty when it contributes no source. -/
theorem copyHTMLSectionFragment_eq (s : DetailSection) :
    copyHTMLSectionFragment s =
      match imgSrcOfSection s with
      | some u => imgDivBlock u
      | none => "" := by
  cases himg : s.imageUrl with
  | none => simp [copyHTMLSectionFragment, imgSrcOfSection, himg]
  | some u =>
      simp only [copyHTMLSectionFragment, imgSrcOfSection, himg]
      by_cases h1 : (u == "") = true
      · have hbne : (u != "") = false := by simp [bne, h1]
        simp [h1, hbne]
      · have hbne : (u != "") = true := by simp [bne, h1]
        by_cases h2 : strStartsWith u "data:" = true
        · simp [h1, hbne, h2]
        · simp only [Bool.not_eq_true] at h2
          simp [h1, hbne, h2, imgDivBlock]

/-- The export loop appends exactly the image blocks of the included
sources, in order. -/
theorem copyHTML_foldl_eq (l : List DetailSection) (init : String) :
    l.foldl (fun html s => html ++ copyHTMLSectionFragment s) init
      = (includedImgSrcs l).foldl (fun html u => html ++ imgDivBlock u) init := by
  induction l generalizing init with
  | nil => rfl
  | cons s rest ih =>
      rw [List.foldl_cons, copyHTMLSectionFragment_eq, includedImgSrcs,
        List.filterMap_cons]
      cases hsrc : imgSrcOfSection s with
      | none =>
          rw [String.append_empty]
          exact ih init
      | some u =>
          rw [List.foldl_cons]
          exact ih (init ++ imgDivBlock u)

/-- C7 amended: the markup export is exactly the fixed wrapper around the
image blocks of the visible sections' included sources — an `<img>` block
appears for a section exactly when its `imageUrl` is a nonempty non-inline
URL, never for an inline data URI, and nothing else (no product title/price
block, no text blocks) is emitted. -/
theorem copyHTML_emits_exactly_visible_remote_images
    (visibleSections : List DetailSection) :
    handleCopyHTML visibleSections
      = ((includedImgSrcs visibleSections).foldl
          (fun html u => html ++ imgDivBlock u)
          "<div style=\"max-width:600px;margin:0 auto;font-family:\x27Malgun Gothic\x27,sans-serif;background:#fff;\">")
        ++ "</div>"
    ∧ (∀ u : String, u ∈ includedImgSrcs visibleSections ↔
        ∃ s ∈ visibleSections, s.imageUrl = some u ∧ u ≠ ""
          ∧ strStartsWith u "data:" = false)
    ∧ (∀ s ∈ visibleSections, ∀ u : String, s.imageUrl = some u →
        strStartsWith u "data:" = true → copyHTMLSectionFragment s = "") := by
  refine ⟨?_, ?_, ?_⟩
  · unfold handleCopyHTML
    rw [copyHTML_foldl_eq]
  · intro u
    simp only [includedImgSrcs, List.mem_filterMap]
    constructor
    · rintro ⟨s, hs, hf⟩
      refine ⟨s, hs, ?_⟩
      cases himg : s.imageUrl with
      | none => simp [imgSrcOfSection, himg] at hf
      | some v =>
          simp only [imgSrcOfSection, himg] at hf
          by_cases hc : (v != "" && !strStartsWith v "data:") = true
          · rw [if_pos hc] at hf
            simp only [Bool.and_eq_true] at hc
            obtain ⟨hne, hnd⟩ := hc
            injection hf with hvu
            rw [hvu] at hne hnd
            refine ⟨by rw [hvu], by simpa [bne] using hne, ?_⟩
            cases hD : strStartsWith u "data:"
            · rfl
            · rw [hD] at hnd
              simp at hnd
          · rw [if_neg hc] at hf
            exact absurd hf (by simp)
    · rintro ⟨s, hs, himg, hne, hnd⟩
      refine ⟨s, hs, ?_⟩
      have hbne : (u != "") = true := by simp [bne, hne]
      simp [imgSrcOfSection, himg, hbne, hnd]
  · intro s _ u himg hd
    rw [copyHTMLSectionFragment_eq]
    have : imgSrcOfSection s = none := by
      simp [imgSrcOfSection, himg, hd]
    rw [this]

/-- C7 counterexample: the export over a visible section with a remote
image contains its `<img>` block but no product title, no price figure and
no copy text — the product title/price block and text blocks the claim
requires are absent (the export never reads the product data at all). -/
theorem copyHTML_lacks_title_price_text :
    sampleProduct.name = "테스트상품"
    ∧ sampleProduct.price = 12900
    ∧ visibleRemoteSection.keyMessage = "메인 카피"
    ∧ strIncludes (handleCopyHTML [visibleRemoteSection]) "테스트상품" = false
    ∧ strIncludes (handleCopyHTML [visibleRemoteSection]) "12900" = false
    ∧ strIncludes (handleCopyHTML [visibleRemoteSection]) "메인 카피" = false
    ∧ strIncludes (handleCopyHTML [visibleRemoteSection]) "<img" = true :=
  ⟨rfl, rfl, rfl, by decide, by decide, by decide, by decide⟩

/-- C7 witness: over a remote-image section and an inline-image section,
the remote URL is embedded and the inline section contributes nothing. -/
theorem copyHTML_instances :
    ("https://img.example/1.png"
        ∈ includedImgSrcs [visibleRemoteSection, visibleInlineSection]
      ↔ ∃ s ∈ [visibleRemoteSection, visibleInlineSection],
          s.imageUrl = some "https://img.example/1.png"
          ∧ "https://img.example/1.png" ≠ ""
          ∧ strStartsWith "https://img.example/1.png" "data:" = false)
    ∧ copyHTMLSectionFragment visibleInlineSection = "" :=
  ⟨(copyHTML_emits_exactly_visible_remote_images
      [visibleRemoteSection, visibleInlineSection]).2.1 "https://img.example/1.png",
    (copyHTML_emits_exactly_visible_remote_images
      [visibleRemoteSection, visibleInlineSection]).2.2 visibleInlineSection
      (by simp) "data:image/png;base64,AAA" rfl (by decide)⟩

/-! ### C10 — regenerate updates are frame-local -/

/-- C10: each of the three state updates of the single-section regenerate
operation (marking `isGenerating`, writing the new image on success,
clearing the flag on failure) keeps the thumbnail, the section count and
the id at every position unchanged, and leaves every section whose id
differs from the target completely untouched. -/
theorem regenerate_updates_touch_only_target
    (page : GeneratedDetailPage) (sectionId newImageUrl : String) :
    ((markSectionGenerating sectionId page).thumbnail = page.thumbnail
      ∧ (setSectionImage sectionId newImageUrl page).thumbnail = page.thumbnail
      ∧ (clearSectionGenerating sectionId page).thumbnail = page.thumbnail)
    ∧ ((markSectionGenerating sectionId page).sections.length
          = page.sections.length
      ∧ (setSectionImage sectionId newImageUrl page).sections.length
          = page.sections.length
      ∧ (clearSectionGenerating sectionId page).sections.length
          = page.sections.length)
    ∧ (∀ i : Nat,
        ((markSectionGenerating sectionId page).sections[i]?).map
            DetailSection.id = (page.sections[i]?).map DetailSection.id
        ∧ ((setSectionImage sectionId newImageUrl page).sections[i]?).map
            DetailSection.id = (page.sections[i]?).map DetailSection.id
        ∧ ((clearSectionGenerating sectionId page).sections[i]?).map
            DetailSection.id = (page.sections[i]?).map DetailSection.id)
    ∧ (∀ (i : Nat) (s : DetailSection), page.sections[i]? = some s →
        s.id ≠ sectionId →
        (markSectionGenerating sectionId page).sections[i]? = some s
        ∧ (setSectionImage sectionId newImageUrl page).sections[i]? = some s
        ∧ (clearSectionGenerating sectionId page).sections[i]? = some s) := by
  have hbeq : ∀ s : DetailSection, s.id ≠ sectionId →
      (s.id == sectionId) = false := by
    intro s h
    cases hb : s.id == sectionId
    · rfl
    · exact absurd (eq_of_beq hb) h
  refine ⟨⟨rfl, rfl, rfl⟩,
    ⟨by simp [markSectionGenerating], by simp [setSectionImage],
      by simp [clearSectionGenerating]⟩, ?_, ?_⟩
  · intro i
    refine ⟨?_, ?_, ?_⟩ <;>
      · simp only [markSectionGenerating, setSectionImage,
          clearSectionGenerating, List.getElem?_map, Option.map_map]
        cases hsec : page.sections[i]? with
        | none => rfl
        | some s =>
            simp only [Option.map_some', Function.comp, Option.some.injEq]
            split <;> rfl
  · intro i s hs hid
    have hfix := hbeq s hid
    refine ⟨?_, ?_, ?_⟩ <;>
      · simp only [markSectionGenerating, setSectionImage,
          clearSectionGenerating, List.getElem?_map, hs, Option.map_some']
        simp [hfix]

/-- C10 witness: regenerating section "section-1" on a two-section page
leaves the second section and the thumbnail untouched at every step. -/
theorem regenerate_updates_instance :
    ((markSectionGenerating "section-1" oldImagePage).sections[1]?
        = some { plannedSolutionSection with id := "section-2" }
      ∧ (setSectionImage "section-1" "https://new.example/n.png"
          oldImagePage).sections[1]?
        = some { plannedSolutionSection with id := "section-2" }
      ∧ (clearSectionGenerating "section-1" oldImagePage).sections[1]?
        = some { plannedSolutionSection with id := "section-2" })
    ∧ (markSectionGenerating "section-1" oldImagePage).thumbnail
        = oldImagePage.thumbnail :=
  ⟨(regenerate_updates_touch_only_target oldImagePage "section-1"
        "https://new.example/n.png").2.2.2 1
      { plannedSolutionSection with id := "section-2" } rfl (by decide),
    (regenerate_updates_touch_only_target oldImagePage "section-1"
        "https://new.example/n.png").1.1⟩

end Btk
